import Mathlib

/-!
Verification of the small-size encryption tier
(`src/sequential/small_encryptor.rs`) of the `self_encryption` repository.

The tier accumulates bytes in an owned buffer below a fixed size threshold
and finalises into an inline-content data map, passing the storage
capability through untouched.  All operations return immediately-resolved
futures over a layered error type; we model such a future as `Except err α`
(`future::ok(x)` becomes `Except.ok x`).
-/

namespace SelfEncryption

/-- Bytes of the buffer (`u8` values).  The tier never performs arithmetic
on individual bytes; they are carried as opaque `Fin 256` values. -/
abbrev Byte := Fin 256

/-- Modulus of 64-bit unsigned arithmetic. -/
def U64_MOD : Nat := 2 ^ 64

/-- Embedding of `pub const MAX: u64 = (3 * MIN_CHUNK_SIZE as u64) - 1;`.
`MIN_CHUNK_SIZE` is a `u32` constant declared in the sequential module,
outside the visible source, so `MAX` is parameterised by its value
`minChunkSize`.  The cast `as u64` is lossless; the multiplication and the
subtraction are `u64` operations, modelled with explicit wrapping
mod `2 ^ 64` (the subtraction is written `x + 2 ^ 64 - 1` before reducing,
which agrees with two's-complement wrapping for every `x < 2 ^ 64`). -/
def MAX (minChunkSize : Nat) : Nat :=
  (3 * minChunkSize % U64_MOD + U64_MOD - 1) % U64_MOD

/-- Modelled from the spec: `SelfEncryptionError` (declared outside the
visible source) is the layered error type whose kinds cover storage I/O
failures of sibling tiers; the small tier never constructs any variant of
it.  The storage-error payload type `E` is the associated error type of the
storage capability. -/
inductive SelfEncryptionError (E : Type) where
  | Compression : SelfEncryptionError E
  | Storage : E → SelfEncryptionError E

/-- Modelled from the spec: `DataMap` (declared in `data_map`, outside the
visible source) is a tagged union with an inline-content variant holding
raw bytes, plus chunked variants produced only by sibling tiers. -/
inductive DataMap where
  | Content : List Byte → DataMap
  | Chunks : List (List Byte) → DataMap
deriving DecidableEq

/-- Embedding of `pub struct SmallEncryptor<S> { pub storage: S, pub buffer: Vec<u8> }`. -/
structure SmallEncryptor (S : Type) where
  storage : S
  buffer : List Byte
deriving DecidableEq

/-- Embedding of `SmallEncryptor::new`: wraps the storage and the seed
bytes, resolving immediately with `future::ok`.  The
`debug_assert!(data.len() as u64 <= MAX)` is compiled out of optimized
builds and does not affect the returned value. -/
def SmallEncryptor.new {S E : Type} (storage : S) (data : List Byte) :
    Except (SelfEncryptionError E) (SmallEncryptor S) :=
  Except.ok { storage := storage, buffer := data }

/-- Embedding of `SmallEncryptor::write`: appends `data` to the internal
buffer (`extend_from_slice`) and resolves with `future::ok`.  The
`debug_assert!(data.len() as u64 + self.len() <= MAX)` is compiled out of
optimized builds and does not affect the returned value. -/
def SmallEncryptor.write {S E : Type} (self : SmallEncryptor S) (data : List Byte) :
    Except (SelfEncryptionError E) (SmallEncryptor S) :=
  Except.ok { self with buffer := self.buffer ++ data }

/-- Embedding of `SmallEncryptor::close`: resolves with
`future::ok((DataMap::Content(self.buffer), self.storage))`. -/
def SmallEncryptor.close {S E : Type} (self : SmallEncryptor S) :
    Except (SelfEncryptionError E) (DataMap × S) :=
  Except.ok (DataMap.Content self.buffer, self.storage)

/-- Embedding of `SmallEncryptor::len`: `self.buffer.len() as u64`.  The
cast from `usize` to `u64` is lossless, so the result is the buffer
length. -/
def SmallEncryptor.len {S : Type} (self : SmallEncryptor S) : Nat :=
  self.buffer.length

/-- Embedding of `SmallEncryptor::is_empty`: `self.buffer.is_empty()`. -/
def SmallEncryptor.is_empty {S : Type} (self : SmallEncryptor S) : Bool :=
  self.buffer.isEmpty

/-- Sequential composition of `write` calls, used to state whole-run
properties: performs each write in order, threading the encryptor through
the future's bind. -/
def SmallEncryptor.writeAll {S E : Type} (e : SmallEncryptor S) :
    List (List Byte) → Except (SelfEncryptionError E) (SmallEncryptor S)
  | [] => Except.ok e
  | d :: rest => (e.write d) >>= fun e2 => e2.writeAll rest

/-- Instances reachable by `new` under its seed precondition followed by
any sequence of `write` calls each under its size precondition, for a given
value `m` of `MIN_CHUNK_SIZE`. -/
inductive Reachable (m : Nat) (S E : Type) : SmallEncryptor S → Prop where
  | of_new : ∀ (s : S) (seed : List Byte) (e : SmallEncryptor S),
      seed.length ≤ MAX m →
      SmallEncryptor.new (E := E) s seed = Except.ok e →
      Reachable m S E e
  | of_write : ∀ (e e' : SmallEncryptor S) (d : List Byte),
      Reachable m S E e →
      e.len + d.length ≤ MAX m →
      e.write (E := E) d = Except.ok e' →
      Reachable m S E e'

/-- Helper: a run of `writeAll` always resolves successfully, keeps the
storage untouched, and appends the concatenation of all pieces to the
buffer. -/
theorem SmallEncryptor.writeAll_eq {S E : Type} (ds : List (List Byte)) (e : SmallEncryptor S) :
    e.writeAll (E := E) ds = Except.ok ⟨e.storage, e.buffer ++ ds.flatten⟩ := by
  induction ds generalizing e with
  | nil => simp [SmallEncryptor.writeAll]
  | cons d rest ih =>
      simp [SmallEncryptor.writeAll, SmallEncryptor.write, ih, Bind.bind, Except.bind,
        List.append_assoc]

/-- C1: the tier's capacity constant `MAX` equals exactly
`3 * MIN_CHUNK_SIZE - 1` as a 64-bit unsigned integer, for every value the
`u32` constant `MIN_CHUNK_SIZE` may have (every positive value below
`2 ^ 32`; a zero value would make the constant's `u64` subtraction
underflow, which Rust rejects at constant-evaluation time). -/
theorem MAX_eq_three_min_chunk_sub_one (m : Nat) (hpos : 1 ≤ m) (hu32 : m < 2 ^ 32) :
    MAX m = 3 * m - 1 ∧ MAX m < U64_MOD := by
  have hK : U64_MOD = 18446744073709551616 := by norm_num [U64_MOD]
  simp only [MAX, hK]
  omega

/-- Witness for C1 at the concrete value `MIN_CHUNK_SIZE = 1024`. -/
theorem MAX_eq_three_min_chunk_sub_one_witness :
    1 ≤ 1024 ∧ 1024 < 2 ^ 32 ∧ (MAX 1024 = 3 * 1024 - 1 ∧ MAX 1024 < U64_MOD) :=
  ⟨by decide, by norm_num, MAX_eq_three_min_chunk_sub_one 1024 (by decide) (by norm_num)⟩

/-- C2: under the size precondition, `write(d)` resolves successfully to an
instance whose buffer is the old buffer with `d` appended (strict append)
and whose storage is unchanged. -/
theorem write_appends {S E : Type} (m : Nat) (e : SmallEncryptor S) (d : List Byte)
    (hpre : e.buffer.length + d.length ≤ MAX m) :
    e.write (E := E) d = Except.ok { storage := e.storage, buffer := e.buffer ++ d } :=
  rfl

/-- Witness for C2 on a two-byte buffer with a one-byte write, at
`MIN_CHUNK_SIZE = 1024`. -/
theorem write_appends_witness :
    (([1, 2] : List Byte).length + ([3] : List Byte).length ≤ MAX 1024) ∧
    SmallEncryptor.write (E := Unit) ⟨0, [1, 2]⟩ ([3] : List Byte)
      = Except.ok (⟨0, [1, 2, 3]⟩ : SmallEncryptor Nat) :=
  ⟨by decide, write_appends 1024 ⟨0, [1, 2]⟩ [3] (by decide)⟩

/-- C3: `close()` resolves successfully to the pair of the inline-content
variant `DataMap.Content` wrapping exactly the final buffer, byte for byte,
and the storage; by this equation no other data-map variant is ever
produced. -/
theorem close_returns_content {S E : Type} (e : SmallEncryptor S) :
    e.close (E := E) = Except.ok (DataMap.Content e.buffer, e.storage) :=
  rfl

/-- C4: for every storage value, seed and sequence of writes, the whole run
`new`, then all writes, then `close` resolves successfully and its storage
component is exactly the storage supplied to `new` — the tier threads the
opaque capability through without touching it. -/
theorem storage_passed_through {S E : Type} (s : S) (seed : List Byte)
    (writes : List (List Byte)) :
    (SmallEncryptor.new (E := E) s seed >>= fun e =>
      e.writeAll writes >>= fun e2 => e2.close)
      = Except.ok (DataMap.Content (seed ++ writes.flatten), s) := by
  simp [SmallEncryptor.new, SmallEncryptor.writeAll_eq, SmallEncryptor.close,
    Bind.bind, Except.bind]

/-- C5: every instance reachable by a `new` call under the seed
precondition followed by `write` calls each under the size precondition has
buffer length at most `MAX`. -/
theorem reachable_len_le_MAX {S E : Type} (m : Nat) (e : SmallEncryptor S)
    (h : Reachable m S E e) : e.len ≤ MAX m := by
  induction h with
  | of_new s seed e' hseed hnew =>
      cases hnew
      simpa [SmallEncryptor.len] using hseed
  | of_write e' e'' d _ hpre hw ih =>
      cases hw
      simpa [SmallEncryptor.len, SmallEncryptor.write] using hpre

/-- Witness for C5: an instance obtained from `new` with a three-byte seed,
at `MIN_CHUNK_SIZE = 1024`. -/
theorem reachable_len_le_MAX_witness :
    Reachable 1024 Nat Unit (⟨0, [1, 2, 3]⟩ : SmallEncryptor Nat) ∧
    (⟨0, [1, 2, 3]⟩ : SmallEncryptor Nat).len ≤ MAX 1024 :=
  have hr : Reachable 1024 Nat Unit (⟨0, [1, 2, 3]⟩ : SmallEncryptor Nat) :=
    Reachable.of_new 0 [1, 2, 3] ⟨0, [1, 2, 3]⟩ (by decide) rfl
  ⟨hr, reachable_len_le_MAX 1024 ⟨0, [1, 2, 3]⟩ hr⟩

/-- C6: appending `b1` then `b2` yields the same resolved instance as a
single append of the concatenation `b1 ++ b2`, whenever the intermediate
and final lengths stay at most `MAX`. -/
theorem write_write_eq_write_append {S E : Type} (m : Nat) (e : SmallEncryptor S)
    (b1 b2 : List Byte)
    (hmid : e.len + b1.length ≤ MAX m)
    (hfin : e.len + b1.length + b2.length ≤ MAX m) :
    (e.write (E := E) b1 >>= fun e1 => e1.write b2) = e.write (b1 ++ b2) := by
  simp [SmallEncryptor.write, Bind.bind, Except.bind, List.append_assoc]

/-- Witness for C6 splitting `[1, 2, 3]` as `[1] ++ [2, 3]`, at
`MIN_CHUNK_SIZE = 1024`. -/
theorem write_write_eq_write_append_witness :
    ((⟨0, []⟩ : SmallEncryptor Nat).len + ([1] : List Byte).length ≤ MAX 1024) ∧
    ((⟨0, []⟩ : SmallEncryptor Nat).len + ([1] : List Byte).length
      + ([2, 3] : List Byte).length ≤ MAX 1024) ∧
    ((SmallEncryptor.write (E := Unit) (⟨0, []⟩ : SmallEncryptor Nat) [1]
        >>= fun e1 => e1.write [2, 3])
      = SmallEncryptor.write (⟨0, []⟩ : SmallEncryptor Nat) ([1] ++ [2, 3])) :=
  ⟨by decide, by decide,
    write_write_eq_write_append 1024 ⟨0, []⟩ [1] [2, 3] (by decide) (by decide)⟩

/-- C7: `close()` on the instance produced by `new(s, D)` with no
intervening write yields exactly the inline-content data map on `D` and the
storage `s`, for every seed `D` within the capacity bound. -/
theorem new_close_identity {S E : Type} (m : Nat) (s : S) (D : List Byte)
    (hseed : D.length ≤ MAX m) :
    (SmallEncryptor.new (E := E) s D >>= fun e => e.close)
      = Except.ok (DataMap.Content D, s) :=
  rfl

/-- Witness for C7 on the seed `[7, 8]`, at `MIN_CHUNK_SIZE = 1024`. -/
theorem new_close_identity_witness :
    (([7, 8] : List Byte).length ≤ MAX 1024) ∧
    (SmallEncryptor.new (E := Unit) (0 : Nat) ([7, 8] : List Byte)
        >>= fun e => e.close)
      = Except.ok (DataMap.Content [7, 8], (0 : Nat)) :=
  ⟨by decide, new_close_identity 1024 0 [7, 8] (by decide)⟩

/-- C8: no operation of the tier ever produces an error outcome: for every
input, `new`, `write` and `close` resolve to the `Except.ok` variant and
never to the `SelfEncryptionError` branch.  (`len` and `is_empty` are total
functions returning plain values, so they cannot fail by construction.) -/
theorem no_error_outcome {S E : Type} (s : S) (e : SmallEncryptor S) (d : List Byte) :
    (∃ v, SmallEncryptor.new (E := E) s d = Except.ok v) ∧
    (∃ v, e.write (E := E) d = Except.ok v) ∧
    (∃ v, e.close (E := E) = Except.ok v) :=
  ⟨⟨_, rfl⟩, ⟨_, rfl⟩, ⟨_, rfl⟩⟩

/-- C9: with debug assertions compiled out, the size bound is not enforced:
even when the combined length exceeds `MAX`, `write(d)` still resolves
successfully to the full concatenation — nothing is truncated or wrapped
and no error is raised. -/
theorem write_unchecked_beyond_MAX {S E : Type} (m : Nat) (e : SmallEncryptor S)
    (d : List Byte) (hover : MAX m < e.buffer.length + d.length) :
    e.write (E := E) d = Except.ok { storage := e.storage, buffer := e.buffer ++ d } :=
  rfl

/-- Witness for C9: at `MIN_CHUNK_SIZE = 1`, `MAX 1 = 2`, and writing one
byte onto a two-byte buffer exceeds it yet still appends in full. -/
theorem write_unchecked_beyond_MAX_witness :
    (MAX 1 < ([4, 5] : List Byte).length + ([6] : List Byte).length) ∧
    SmallEncryptor.write (E := Unit) ⟨0, [4, 5]⟩ ([6] : List Byte)
      = Except.ok (⟨0, [4, 5, 6]⟩ : SmallEncryptor Nat) :=
  ⟨by decide, write_unchecked_beyond_MAX 1 ⟨0, [4, 5]⟩ [6] (by decide)⟩

/-- C10: every operation of the tier is deterministic: on equal storage
values, equal buffer contents and equal input bytes, `new`, `write`,
`close`, `len` and `is_empty` produce equal results — each output depends
only on the explicit arguments. -/
theorem operations_deterministic {S E : Type} (s1 s2 : S) (seed1 seed2 d1 d2 : List Byte)
    (e1 e2 : SmallEncryptor S)
    (hs : s1 = s2) (hseed : seed1 = seed2) (hd : d1 = d2)
    (hst : e1.storage = e2.storage) (hbuf : e1.buffer = e2.buffer) :
    SmallEncryptor.new (E := E) s1 seed1 = SmallEncryptor.new (E := E) s2 seed2 ∧
    e1.write (E := E) d1 = e2.write (E := E) d2 ∧
    e1.close (E := E) = e2.close (E := E) ∧
    e1.len = e2.len ∧
    e1.is_empty = e2.is_empty := by
  cases e1
  cases e2
  cases hst
  cases hbuf
  cases hs
  cases hseed
  cases hd
  exact ⟨rfl, rfl, rfl, rfl, rfl⟩

/-- Witness for C10 on concrete equal arguments. -/
theorem operations_deterministic_witness :
    SmallEncryptor.new (E := Unit) (5 : Nat) ([1] : List Byte)
      = SmallEncryptor.new (E := Unit) (5 : Nat) ([1] : List Byte) ∧
    SmallEncryptor.write (E := Unit) (⟨5, [1]⟩ : SmallEncryptor Nat) [2]
      = SmallEncryptor.write (E := Unit) (⟨5, [1]⟩ : SmallEncryptor Nat) [2] ∧
    SmallEncryptor.close (E := Unit) (⟨5, [1]⟩ : SmallEncryptor Nat)
      = SmallEncryptor.close (E := Unit) (⟨5, [1]⟩ : SmallEncryptor Nat) ∧
    (⟨5, [1]⟩ : SmallEncryptor Nat).len = (⟨5, [1]⟩ : SmallEncryptor Nat).len ∧
    (⟨5, [1]⟩ : SmallEncryptor Nat).is_empty = (⟨5, [1]⟩ : SmallEncryptor Nat).is_empty :=
  operations_deterministic 5 5 [1] [1] [2] [2] ⟨5, [1]⟩ ⟨5, [1]⟩ rfl rfl rfl rfl rfl

end SelfEncryption
